import Mathlib

/-!
Verification of the pyrs/py14 transpiler sources against their specification.

Embedded files:
* `src/common/clike.py`   — operator-symbol table and the generic C-like emitter
  (`CLikeTranspiler`);
* `src/py14/transpiler.py` — the C++14 backend (`CppTranspiler`), which overrides
  a subset of the generic handlers and keeps the declared-name set `_vars`;
* `src/pyrs/declaration_extractor.py` — the Rust backend's
  `type_by_initialization`.

The Python AST fragment these files handle is embedded as `Expr`/`Stmt`.
The external `tracer` module (functions `decltype`, `is_list`,
`is_builtin_import`, `is_recursive`, imported by `transpiler.py` but not part
of these sources) is a parameter of the embedding (`Tracer`); a spec-modelled
instance `specTracer` is provided for concrete evaluation.

Python exceptions (ValueError, NotImplementedError, and the AttributeErrors
that missing handlers such as `visit_BinOp`'s super call or `visit_Any` would
raise) are modelled as `Except.error`; the mutable `self._vars` set is an
explicit `List String` threaded through the statement visitor.
-/

/-- Python ast operator/keyword node kinds appearing in the `symbols` table of
src/common/clike.py (lines 4–30).  `ast.Pass` is also in that table; being a
statement it is embedded as `Stmt.passStmt` below. -/
inductive Op where
  | Eq | Is | NotEq | Mult | Add | Sub | Div | FloorDiv | Mod
  | Lt | Gt | GtE | LtE | LShift | RShift | BitXor | BitOr | BitAnd
  | Not | IsNot | USub | And | Or | In
deriving DecidableEq

/-- The `symbols` table of src/common/clike.py lines 4–30: operator node kind
to C symbol text. -/
def symbols : Op → String
  | .Eq => "=="
  | .Is => "=="
  | .NotEq => "!="
  | .Mult => "*"
  | .Add => "+"
  | .Sub => "-"
  | .Div => "/"
  | .FloorDiv => "/"
  | .Mod => "%"
  | .Lt => "<"
  | .Gt => ">"
  | .GtE => ">="
  | .LtE => "<="
  | .LShift => "<<"
  | .RShift => ">>"
  | .BitXor => "^"
  | .BitOr => "|"
  | .BitAnd => "&"
  | .Not => "!"
  | .IsNot => "!="
  | .USub => "-"
  | .And => "&&"
  | .Or => "||"
  | .In => "in"

/-- `c_symbol` of src/common/clike.py line 33: the C symbol for a Python ast
symbol node. -/
def c_symbol (op : Op) : String := symbols op

/-- The expression fragment of the Python AST handled by these sources. -/
inductive Expr where
  | name (id : String)                            -- ast.Name
  | num (n : Int)                                 -- numeric literal (visit_Constant prints str(node.n))
  | strLit (s : String)                           -- ast.Str
  | listLit (elts : List Expr)                    -- ast.List
  | tupleLit (elts : List Expr)                   -- ast.Tuple
  | call (func : Expr) (args : List Expr)         -- ast.Call
  | attrAccess (value : Expr) (attr : String)     -- ast.Attribute
  | binOp (left : Expr) (op : Op) (right : Expr)  -- ast.BinOp
  | unaryOp (op : Op) (operand : Expr)            -- ast.UnaryOp
  | boolOp (op : Op) (values : List Expr)         -- ast.BoolOp
  | compare (left : Expr) (ops : List Op) (comparators : List Expr)  -- ast.Compare
  | subscriptIndex (value : Expr) (index : Expr)  -- ast.Subscript with an ast.Index slice
  | subscriptEllipsis (value : Expr)              -- ast.Subscript with an ast.Ellipsis slice
  | subscriptSlice (value : Expr)                 -- ast.Subscript with any other slice

/-- The statement fragment of the Python AST handled by these sources.
`visit_TryExcept` of transpiler.py is outside every claim and is not
embedded. -/
inductive Stmt where
  | assign (targets : List Expr) (value : Expr)   -- ast.Assign
  | augAssign (target : Expr) (op : Op) (value : Expr)  -- ast.AugAssign
  | ifStmt (test : Expr) (body : List Stmt) (orelse : List Stmt)  -- ast.If
  | whileStmt (test : Expr) (body : List Stmt)    -- ast.While (orelse unused by the emitter)
  | forStmt (target : Expr) (iter : Expr) (body : List Stmt)  -- ast.For
  | functionDef (fname : String) (args : List String) (body : List Stmt)  -- ast.FunctionDef
  | ret (value : Option Expr)                     -- ast.Return
  | exprStmt (value : Expr)                       -- ast.Expr
  | breakStmt                                     -- ast.Break
  | continueStmt                                  -- ast.Continue
  | passStmt                                      -- ast.Pass (in the symbols table)
  | importStmt (names : List String)              -- ast.Import with its alias names

/-- The external `tracer` module imported at src/py14/transpiler.py line 2 is
not among these sources; the transpiler only calls it, so its four functions
are parameters of the embedding.  `decltypeExpr` and `decltypeAssign` are
tracer.decltype applied to an expression (visit_List line 157) respectively to
an Assign statement node (visit_Assign line 214). -/
structure Tracer where
  decltypeExpr : Expr → String
  decltypeAssign : Stmt → String
  is_list : Expr → Bool
  is_builtin_import : String → Bool
  is_recursive : Stmt → Bool

/-- `CppTranspiler.visit_Name` (transpiler.py line 112) on top of
`CLikeTranspiler.visit_Name` (clike.py line 53): `None` becomes `nullptr`,
the builtin constants `True`/`False` are lowercased, any other id is kept.
(The base class's is-annotation path reads a mark that nothing in these
sources ever sets, so it is unreachable.) -/
def visit_Name (id : String) : String :=
  if id = "None" then "nullptr"
  else if id = "True" ∨ id = "False" then id.toLower
  else id

/-- `CppTranspiler.visit_Str` (transpiler.py line 108): the base rendering
(clike.py line 72) with the C++14 string-literal suffix appended. -/
def visit_Str (s : String) : String := "\"" ++ s ++ "\"" ++ "s"

mutual

/-- The expression-level visitor: `CLikeTranspiler.visit` dispatch (clike.py
line 47) with the `CppTranspiler` overrides of transpiler.py.  Each case notes
the source handler it is translated from. -/
def visitExpr (t : Tracer) : Expr → Except String String
  | .name id => .ok (visit_Name id)
  | .num n => .ok (toString n)        -- CLikeTranspiler.visit_Constant, clike.py line 69
  | .strLit s => .ok (visit_Str s)
  | .listLit elts =>
      -- CppTranspiler.visit_List, transpiler.py line 154
      match elts with
      | [] => .error "Cannot create vector without elements"
      | e :: es => do
          let elements ← visitExprList t (e :: es)
          .ok ("std::vector<" ++ t.decltypeExpr e ++ ">\x7b" ++
               String.intercalate ", " elements ++ "\x7d")
  | .tupleLit elts => do
      -- CppTranspiler.visit_Tuple, transpiler.py line 174
      let es ← visitExprList t elts
      .ok ("std::make_tuple(" ++ String.intercalate ", " es ++ ")")
  | .call func args => do
      -- CppTranspiler.visit_Call, transpiler.py line 68
      let fname ← visitExpr t func
      let argStrs ← visitExprList t args
      let argsJoined := String.intercalate ", " argStrs
      if fname = "int" then .ok ("py14::to_int(" ++ argsJoined ++ ")")
      else if fname = "str" then .ok ("std::to_string(" ++ argsJoined ++ ")")
      else if fname = "max" then .ok ("std::max(" ++ argsJoined ++ ")")
      else if fname = "range" ∨ fname = "xrange" then .ok ("py14::range(" ++ argsJoined ++ ")")
      else if fname = "len" then .ok ("py14::len(" ++ argsJoined ++ ")")
      else .ok (fname ++ "(" ++ argsJoined ++ ")")
  | .attrAccess value attr =>
      -- CppTranspiler.visit_Attribute, transpiler.py line 51; it reads
      -- node.value.id, so a non-Name receiver raises AttributeError.
      match value with
      | .name vid =>
          if t.is_builtin_import vid then .ok ("py14::" ++ vid ++ "::" ++ attr)
          else if vid = "math" ∧ attr = "asin" then .ok "std::asin"
          else if vid = "math" ∧ attr = "atan" then .ok "std::atan"
          else if vid = "math" ∧ attr = "acos" then .ok "std::acos"
          else
            let attr2 := if t.is_list (.name vid) ∧ attr = "append" then "push_back" else attr
            .ok (vid ++ "." ++ attr2)
      | _ => .error "AttributeError: node value has no field id"
  | .binOp left op right =>
      -- CppTranspiler.visit_BinOp, transpiler.py line 130.  The fallthrough
      -- calls super().visit_BinOp, which neither CLikeTranspiler nor
      -- ast.NodeVisitor defines: AttributeError.
      match left, op, right with
      | .listLit lelts, .Mult, .num n =>
          match lelts with
          | [] => .error "IndexError: list index out of range"
          | le :: _ => do
              let r := toString n
              let l0 ← visitExpr t le
              .ok ("std::vector (" ++ r ++ "," ++ l0 ++ ")")
      | _, _, _ => .error "AttributeError: visit_BinOp"
  | .unaryOp op operand => do
      -- CLikeTranspiler.visit_UnaryOp, clike.py line 128
      let o ← visitExpr t operand
      .ok (c_symbol op ++ o)
  | .boolOp op values => do
      -- CLikeTranspiler.visit_BoolOp, clike.py line 124
      let vs ← visitExprList t values
      .ok (String.intercalate (c_symbol op) vs)
  | .compare left ops comparators =>
      -- CLikeTranspiler.visit_Compare, clike.py line 114: only ops[0] and
      -- comparators[0] are consulted; ast.In dispatches to visit_Any, which
      -- no class in these sources defines (AttributeError).
      match ops with
      | [] => .error "IndexError: list index out of range"
      | op :: _ =>
          if op = .In then .error "AttributeError: visit_Any"
          else do
            let l ← visitExpr t left
            match comparators with
            | [] => .error "IndexError: list index out of range"
            | c :: _ => do
                let r ← visitExpr t c
                .ok (l ++ " " ++ c_symbol op ++ " " ++ r)
  | .subscriptIndex value index => do
      -- CppTranspiler.visit_Subscript, transpiler.py line 164
      let v ← visitExpr t value
      let i ← visitExpr t index
      .ok (v ++ "[" ++ i ++ "]")
  | .subscriptEllipsis _ => .error "Ellipsis not supported"
  | .subscriptSlice _ => .error "Advanced Slicing not supported"

/-- Visit a list of expressions in order (the list comprehensions of the
source), failing on the first failing element. -/
def visitExprList (t : Tracer) : List Expr → Except String (List String)
  | [] => .ok []
  | e :: es => do
      let s ← visitExpr t e
      let rest ← visitExprList t es
      .ok (s :: rest)

end

mutual

/-- The statement-level visitor.  The second argument and the second result
component are the `self._vars` set of `CppTranspiler.__init__` (transpiler.py
line 21), holding the visited target strings already declared; it is the only
mutable transpiler state these handlers touch (the function-definition stack
is pushed and popped but never read). -/
def visitStmt (t : Tracer) : Stmt → List String → Except String (String × List String)
  | .assign targets value, vars =>
      -- CppTranspiler.visit_Assign, transpiler.py line 201: only targets[0]
      -- is consulted.
      match targets with
      | [] => .error "IndexError: list index out of range"
      | target :: _ =>
        match target with
        | .tupleLit elts => do
            let es ← visitExprList t elts
            let v ← visitExpr t value
            .ok ("std::tie(" ++ String.intercalate ", " es ++ ") = " ++ v ++ ";", vars)
        | tgt =>
          -- branch 2: a Name target whose raw id is in _vars
          if (match tgt with | .name id => vars.contains id | _ => false) then do
            let ts ← visitExpr t tgt
            let v ← visitExpr t value
            .ok (ts ++ " = " ++ v ++ ";", vars)
          else match value with
          | .listLit velts => do
              -- branch 3: right side is a list literal
              let elements ← visitExprList t velts
              let ts ← visitExpr t tgt
              .ok (t.decltypeAssign (.assign targets value) ++ " " ++ ts ++ " \x7b" ++
                   String.intercalate ", " elements ++ "\x7d;", vars)
          | _ =>
            match tgt with
            | .subscriptIndex a b => do
                -- branch 4: Subscript target
                let ts ← visitExpr t (.subscriptIndex a b)
                let v ← visitExpr t value
                .ok (ts ++ " = " ++ v ++ ";", vars)
            | .subscriptEllipsis a => do
                let ts ← visitExpr t (.subscriptEllipsis a)
                let v ← visitExpr t value
                .ok (ts ++ " = " ++ v ++ ";", vars)
            | .subscriptSlice a => do
                let ts ← visitExpr t (.subscriptSlice a)
                let v ← visitExpr t value
                .ok (ts ++ " = " ++ v ++ ";", vars)
            | _ => do
                -- default branch: first-time declaration, recording the
                -- visited target string into _vars
                let ts ← visitExpr t tgt
                let v ← visitExpr t value
                .ok ("auto " ++ ts ++ " = " ++ v ++ ";", vars.insert ts)
  | .augAssign target op value, vars => do
      -- CLikeTranspiler.visit_AugAssign, clike.py line 131
      let ts ← visitExpr t target
      let v ← visitExpr t value
      .ok (ts ++ " " ++ c_symbol op ++ "= " ++ v ++ ";", vars)
  | .ifStmt test body orelse, vars => do
      -- CppTranspiler.visit_If, transpiler.py line 118, else
      -- CLikeTranspiler.visit_If, clike.py line 80 (the test is visited twice
      -- in the source; expression visits are pure, so once suffices here)
      let tv ← visitExpr t test
      if tv = "__name__ == \"__main__\"s" then do
        let (bodyLines, vars2) ← visitStmtList t body vars
        .ok (String.intercalate "\n"
              ("int main(int argc, char ** argv) \x7b" ::
               "py14::sys::argv = std::vector<std::string>(argv, argv + argc);" ::
               bodyLines ++ ["\x7d"]), vars2)
      else do
        let (bodyLines, vars2) ← visitStmtList t body vars
        let (orelseLines, vars3) ← visitStmtList t orelse vars2
        if orelseLines.isEmpty then
          .ok (String.intercalate "\n"
                (("if(" ++ tv ++ ") \x7b") :: bodyLines ++ ["\x7d"]), vars3)
        else
          .ok (String.intercalate "\n"
                (("if(" ++ tv ++ ") \x7b") :: bodyLines ++ ["\x7d else \x7b"] ++ orelseLines ++ ["\x7d"]), vars3)
  | .whileStmt test body, vars => do
      -- CLikeTranspiler.visit_While, clike.py line 104
      let tv ← visitExpr t test
      let (bodyLines, vars2) ← visitStmtList t body vars
      .ok (String.intercalate "\n"
            (("while (" ++ tv ++ ") \x7b") :: bodyLines ++ ["\x7d"]), vars2)
  | .forStmt target iter body, vars => do
      -- CppTranspiler.visit_For, transpiler.py line 90
      let ts ← visitExpr t target
      let iv ← visitExpr t iter
      let (bodyLines, vars2) ← visitStmtList t body vars
      .ok (String.intercalate "\n"
            (("for(auto " ++ ts ++ " : " ++ iv ++ ") \x7b") :: bodyLines ++ ["\x7d"]), vars2)
  | .functionDef fname args body, vars => do
      -- CppTranspiler.visit_FunctionDef, transpiler.py line 23: the body is
      -- emitted first (threading _vars), then the strategy chosen by
      -- tracer.is_recursive picks the template or the lambda form.
      let (bodyLines, vars2) ← visitStmtList t body vars
      let bodyStr := " \x7b\n" ++ String.intercalate "\n" bodyLines ++ "\n\x7d"
      if t.is_recursive (.functionDef fname args body) then
        let targs := args.enum.map (fun p => ("T" ++ toString (p.1 + 1), p.2))
        let typenames := targs.map (fun a => "typename " ++ a.1)
        let template := "template <" ++ String.intercalate ", " typenames ++ ">"
        let params := targs.map (fun a => a.1 ++ " " ++ a.2)
        let funcdef := template ++ "\n" ++ "auto " ++ fname ++ "(" ++
                       String.intercalate ", " params ++ ")"
        .ok (funcdef ++ bodyStr, vars2)
      else
        let params := args.map (fun a => "auto " ++ a)
        let funcdef := "auto " ++ fname ++ " = [](" ++ String.intercalate ", " params ++ ")"
        .ok (funcdef ++ bodyStr ++ ";", vars2)
  | .ret (some v), vars => do
      -- CLikeTranspiler.visit_Return, clike.py line 75
      let vs ← visitExpr t v
      .ok ("return " ++ vs ++ ";", vars)
  | .ret none, vars => .ok ("return;", vars)
  | .exprStmt value, vars => do
      -- CppTranspiler.visit_Expr, transpiler.py line 99
      let s ← visitExpr t value
      let s2 := if s.trim ≠ "" ∧ ¬ s.endsWith ";" then s ++ ";" else s
      if s2 = ";" then .ok ("", vars) else .ok (s2, vars)
  | .breakStmt, vars => .ok ("break;", vars)
  | .continueStmt, vars => .ok ("continue;", vars)
  | .passStmt, vars => .ok ("/*pass*/", vars)  -- via the symbols table dispatch
  | .importStmt names, vars =>
      -- CppTranspiler.visit_Import / visit_alias, transpiler.py lines 147–152
      .ok (String.intercalate "\n"
            (names.map (fun n => "#include \"" ++ n ++ ".h\"")), vars)

/-- Visit a list of statements in order, threading the `_vars` set. -/
def visitStmtList (t : Tracer) : List Stmt → List String → Except String (List String × List String)
  | [], vars => .ok ([], vars)
  | s :: rest, vars => do
      let (line, vars2) ← visitStmt t s vars
      let (lines, vars3) ← visitStmtList t rest vars2
      .ok (line :: lines, vars3)

end

/-- `CppTranspiler.visit_Module` (transpiler.py line 139): visit every
top-level statement, drop empty lines (filter(None, lines)), join with
newlines. -/
def visit_Module (t : Tracer) (body : List Stmt) (vars : List String) : Except String String := do
  let (lines, _) ← visitStmtList t body vars
  .ok (String.intercalate "\n" (lines.filter (fun l => l ≠ "")))

/-- `transpile` (transpiler.py line 8) restricted to emission: a fresh
`CppTranspiler` (empty `_vars`) visits the module.  The four context passes it
runs first live in the external `context` module and only annotate the tree;
none of the embedded handlers reads those annotations. -/
def transpile (t : Tracer) (body : List Stmt) : Except String String :=
  visit_Module t body []

/-- `DeclarationExtractor.type_by_initialization` of
src/pyrs/declaration_extractor.py line 8: declared type from the rendered
initializer string, `none` when unrecognized. -/
def type_by_initialization (init_str : String) : Option String :=
  if init_str = "vec![]" then some "Vec<_>"
  else if init_str = "HashMap::new()" then some "HashMap<_,_>"
  else if init_str = "None" then some "Option<_>"
  else if init_str = "true" ∨ init_str = "false" then some "bool"
  else none

mutual

/-- Modelled from the spec: helper for tracer.is_recursive of the missing
external `tracer` module (spec §4.2: "Walks calls; reports true iff a call's
callee resolves by bare name to the function's own name").  Does the
expression contain a call whose callee is the bare name `f`? -/
def exprSelfCall (f : String) : Expr → Bool
  | .name _ => false
  | .num _ => false
  | .strLit _ => false
  | .listLit es => exprListSelfCall f es
  | .tupleLit es => exprListSelfCall f es
  | .call g args =>
      (match g with | .name id => id = f | _ => false) ||
      exprSelfCall f g || exprListSelfCall f args
  | .attrAccess v _ => exprSelfCall f v
  | .binOp l _ r => exprSelfCall f l || exprSelfCall f r
  | .unaryOp _ o => exprSelfCall f o
  | .boolOp _ vs => exprListSelfCall f vs
  | .compare l _ cs => exprSelfCall f l || exprListSelfCall f cs
  | .subscriptIndex v i => exprSelfCall f v || exprSelfCall f i
  | .subscriptEllipsis v => exprSelfCall f v
  | .subscriptSlice v => exprSelfCall f v

/-- Modelled from the spec: `exprSelfCall` over a list of expressions. -/
def exprListSelfCall (f : String) : List Expr → Bool
  | [] => false
  | e :: es => exprSelfCall f e || exprListSelfCall f es

end

mutual

/-- Modelled from the spec: `exprSelfCall` lifted to statements, walking every
child expression and block. -/
def stmtSelfCall (f : String) : Stmt → Bool
  | .assign ts v => exprListSelfCall f ts || exprSelfCall f v
  | .augAssign tgt _ v => exprSelfCall f tgt || exprSelfCall f v
  | .ifStmt c b e => exprSelfCall f c || stmtListSelfCall f b || stmtListSelfCall f e
  | .whileStmt c b => exprSelfCall f c || stmtListSelfCall f b
  | .forStmt tg it b => exprSelfCall f tg || exprSelfCall f it || stmtListSelfCall f b
  | .functionDef _ _ b => stmtListSelfCall f b
  | .ret (some v) => exprSelfCall f v
  | .ret none => false
  | .exprStmt v => exprSelfCall f v
  | .breakStmt => false
  | .continueStmt => false
  | .passStmt => false
  | .importStmt _ => false

/-- Modelled from the spec: `stmtSelfCall` over a block. -/
def stmtListSelfCall (f : String) : List Stmt → Bool
  | [] => false
  | s :: rest => stmtSelfCall f s || stmtListSelfCall f rest

end

/-- Modelled from the spec: tracer.is_recursive of the missing external
`tracer` module (§4.2): a function definition is recursive iff its body
contains a call whose callee is the function's own bare name. -/
def spec_is_recursive : Stmt → Bool
  | .functionDef f _ body => stmtListSelfCall f body
  | _ => false

/-- Modelled from the spec: tracer.decltype of the missing external `tracer`
module applied to an expression (§4.3 resolution rule 1, literal shape):
integer literals are int, string literals std::string, boolean names bool;
anything else is left to the target's own inference (auto). -/
def spec_decltypeExpr : Expr → String
  | .num _ => "int"
  | .strLit _ => "std::string"
  | .name id => if id = "True" ∨ id = "False" then "bool" else "auto"
  | _ => "auto"

/-- Modelled from the spec: tracer.decltype of the missing external `tracer`
module applied to an Assign node (§4.5 container literals: element type from
the literal's first element). -/
def spec_decltypeAssign : Stmt → String
  | .assign _ (.listLit (e :: _)) => "std::vector<" ++ spec_decltypeExpr e ++ ">"
  | .assign _ v => spec_decltypeExpr v
  | _ => "auto"

/-- Modelled from the spec: a concrete `Tracer` for evaluating the embedding
on closed inputs.  The external tracer module is not under src/; `is_list` and
`is_builtin_import` are context passes over names (§4.1) and are taken as
constantly false here (no import and no list initializer occurs in the inputs
they are evaluated on); the other fields follow the spec sections cited at
their definitions. -/
def specTracer : Tracer where
  decltypeExpr := spec_decltypeExpr
  decltypeAssign := spec_decltypeAssign
  is_list := fun _ => false
  is_builtin_import := fun _ => false
  is_recursive := spec_is_recursive

/-- `x` occurs as a contiguous substring of `s`. -/
def appears (x s : String) : Prop := x.data <:+: s.data

instance (x s : String) : Decidable (appears x s) :=
  inferInstanceAs (Decidable (x.data <:+: s.data))

/-! ## Helper lemmas about substring occurrence -/

/-- Helper: every string contains itself. -/
theorem appears_self (x : String) : appears x x := ⟨[], [], by simp⟩

/-- Helper: occurrence is preserved by appending on the right. -/
theorem appears_append_right (x s q : String) (h : appears x s) : appears x (s ++ q) := by
  unfold appears at h ⊢
  rw [String.data_append]
  exact h.trans (List.prefix_append s.data q.data).isInfix

/-- Helper: occurrence is preserved by appending on the left. -/
theorem appears_append_left (x p s : String) (h : appears x s) : appears x (p ++ s) := by
  unfold appears at h ⊢
  rw [String.data_append]
  exact h.trans (List.suffix_append p.data s.data).isInfix

/-! ## Claim theorems -/

/-- C9: `type_by_initialization` maps exactly the four fixed initializer
forms — the empty-container constructor to a container type, the map
constructor to a map type, the null sentinel to an option type, the boolean
literals to bool — and returns no annotation for every other initializer
string. -/
theorem type_by_initialization_table :
    type_by_initialization "vec![]" = some "Vec<_>" ∧
    type_by_initialization "HashMap::new()" = some "HashMap<_,_>" ∧
    type_by_initialization "None" = some "Option<_>" ∧
    type_by_initialization "true" = some "bool" ∧
    type_by_initialization "false" = some "bool" ∧
    ∀ s, s ≠ "vec![]" → s ≠ "HashMap::new()" → s ≠ "None" → s ≠ "true" → s ≠ "false" →
      type_by_initialization s = none := by
  refine ⟨rfl, rfl, rfl, rfl, rfl, ?_⟩
  intro s h1 h2 h3 h4 h5
  simp [type_by_initialization, h1, h2, h3, h4, h5]

/-- Witness for C9: an unrecognized initializer form yields no annotation. -/
theorem type_by_initialization_table_witness :
    type_by_initialization "Box::new(1)" = none :=
  type_by_initialization_table.2.2.2.2.2 "Box::new(1)"
    (by decide) (by decide) (by decide) (by decide) (by decide)

/-- C10: floor division and true division emit the same operator symbol '/':
the symbols table maps both to "/", and both the binary-operation emitter and
the augmented-assignment emitter are equal on all operands when the two
operators are exchanged, so floor-division semantics are not preserved. -/
theorem floorDiv_div_same_symbol :
    c_symbol Op.FloorDiv = "/" ∧ c_symbol Op.Div = "/" ∧
    (∀ t l r, visitExpr t (Expr.binOp l Op.FloorDiv r) =
              visitExpr t (Expr.binOp l Op.Div r)) ∧
    (∀ t tgt v vars, visitStmt t (Stmt.augAssign tgt Op.FloorDiv v) vars =
                     visitStmt t (Stmt.augAssign tgt Op.Div v) vars) := by
  refine ⟨rfl, rfl, ?_, ?_⟩
  · intro t l r
    cases l <;> cases r <;> rfl
  · intro t tgt v vars
    simp [visitStmt, c_symbol, symbols]

/-- C1 (code bug): in one scope, `a = [1]` followed by `a = 2` emits a typed
container declaration and then a second declaration spelled with `auto`: the
list-literal branch of visit_Assign does not record `a` into `_vars`, so the
claimed plain reassignment is not produced. -/
theorem list_then_plain_assign_redeclares :
    transpile specTracer
      [Stmt.assign [Expr.name "a"] (Expr.listLit [Expr.num 1]),
       Stmt.assign [Expr.name "a"] (Expr.num 2)] =
      Except.ok "std::vector<int> a \x7b1\x7d;\nauto a = 2;" := rfl

/-- C2 (code bug): the list-literal assignment branch emits the explicitly
typed container declaration but returns `_vars` unchanged (the target name is
not recorded), so a later plain assignment to the same name is emitted as a
fresh `auto` declaration rather than a reassignment. -/
theorem list_assign_does_not_record_name :
    visitStmt specTracer (Stmt.assign [Expr.name "a"] (Expr.listLit [Expr.num 1])) [] =
      Except.ok ("std::vector<int> a \x7b1\x7d;", ([] : List String)) ∧
    visitStmt specTracer (Stmt.assign [Expr.name "a"] (Expr.num 2)) [] =
      Except.ok ("auto a = 2;", ["a"]) := ⟨rfl, rfl⟩

/-- Counterexample for C5: destructuring into the not-yet-declared names `a`
and `b` (the declared-name set is empty) emits `std::tie(a, b) = c;` and
returns no error, where the claim requires a loud failure. -/
theorem tuple_destructure_undeclared_no_error :
    visitStmt specTracer
      (Stmt.assign [Expr.tupleLit [Expr.name "a", Expr.name "b"]] (Expr.name "c")) [] =
      Except.ok ("std::tie(a, b) = c;", ([] : List String)) := rfl

/-- C5 (amended): a tuple-targeted assignment always emits structural
destructuring (`std::tie`) of the visited element expressions assigned the
visited value; no declaration-status check is made, no error is raised for
undeclared names, and the declared-name set is left unchanged. -/
theorem visit_Assign_tuple_target (t : Tracer) (elts targets2 : List Expr)
    (value : Expr) (vars : List String) (es : List String) (v : String)
    (he : visitExprList t elts = Except.ok es)
    (hv : visitExpr t value = Except.ok v) :
    visitStmt t (Stmt.assign (Expr.tupleLit elts :: targets2) value) vars =
      Except.ok ("std::tie(" ++ String.intercalate ", " es ++ ") = " ++ v ++ ";", vars) := by
  simp [visitStmt, he, hv]
  rfl

/-- Witness for C5's amended theorem: a concrete tuple destructuring into
undeclared names emits `std::tie` and keeps the declared-name set. -/
theorem visit_Assign_tuple_target_witness :
    visitStmt specTracer
      (Stmt.assign [Expr.tupleLit [Expr.name "x", Expr.name "y"]] (Expr.name "z")) ["q"] =
      Except.ok ("std::tie(x, y) = z;", ["q"]) :=
  visit_Assign_tuple_target specTracer [Expr.name "x", Expr.name "y"] []
    (Expr.name "z") ["q"] ["x", "y"] "z" rfl rfl

/-- C4: a non-empty list literal emits a container constructor whose element
type is tracer.decltype of the literal's first element and whose elements
appear in source order; the empty list literal is an error and emits
nothing. -/
theorem visit_List_spec (t : Tracer) :
    visitExpr t (Expr.listLit []) = Except.error "Cannot create vector without elements" ∧
    ∀ e es parts, visitExprList t (e :: es) = Except.ok parts →
      visitExpr t (Expr.listLit (e :: es)) =
        Except.ok ("std::vector<" ++ t.decltypeExpr e ++ ">\x7b" ++
                   String.intercalate ", " parts ++ "\x7d") := by
  refine ⟨rfl, ?_⟩
  intro e es parts h
  have heq : visitExpr t (Expr.listLit (e :: es)) =
      (visitExprList t (e :: es)).bind (fun elements =>
        Except.ok ("std::vector<" ++ t.decltypeExpr e ++ ">\x7b" ++
                   String.intercalate ", " elements ++ "\x7d")) := rfl
  rw [heq, h]
  rfl

/-- Witness for C4: `[1, 2]` emits an int-element vector with the elements in
source order. -/
theorem visit_List_spec_witness :
    visitExpr specTracer (Expr.listLit [Expr.num 1, Expr.num 2]) =
      Except.ok "std::vector<int>\x7b1, 2\x7d" :=
  (visit_List_spec specTracer).2 (Expr.num 1) [Expr.num 2] ["1", "2"] rfl

/-- C7: a call whose visited callee is one of the fixed builtin names int,
str, max, range/xrange, len emits exactly the mapped target call applied once
to the visited arguments, comma-joined in original order; every other call
emits the visited callee applied to the visited arguments. -/
theorem visit_Call_builtin_map (t : Tracer) (func : Expr) (args : List Expr)
    (fname : String) (argStrs : List String)
    (hf : visitExpr t func = Except.ok fname)
    (ha : visitExprList t args = Except.ok argStrs) :
    (fname = "int" → visitExpr t (Expr.call func args) =
        Except.ok ("py14::to_int(" ++ String.intercalate ", " argStrs ++ ")")) ∧
    (fname = "str" → visitExpr t (Expr.call func args) =
        Except.ok ("std::to_string(" ++ String.intercalate ", " argStrs ++ ")")) ∧
    (fname = "max" → visitExpr t (Expr.call func args) =
        Except.ok ("std::max(" ++ String.intercalate ", " argStrs ++ ")")) ∧
    ((fname = "range" ∨ fname = "xrange") → visitExpr t (Expr.call func args) =
        Except.ok ("py14::range(" ++ String.intercalate ", " argStrs ++ ")")) ∧
    (fname = "len" → visitExpr t (Expr.call func args) =
        Except.ok ("py14::len(" ++ String.intercalate ", " argStrs ++ ")")) ∧
    (fname ∉ ["int", "str", "max", "range", "xrange", "len"] →
        visitExpr t (Expr.call func args) =
          Except.ok (fname ++ "(" ++ String.intercalate ", " argStrs ++ ")")) := by
  have heq : visitExpr t (Expr.call func args) =
      (visitExpr t func).bind (fun fn => (visitExprList t args).bind (fun argList =>
        let argsJoined := String.intercalate ", " argList
        if fn = "int" then Except.ok ("py14::to_int(" ++ argsJoined ++ ")")
        else if fn = "str" then Except.ok ("std::to_string(" ++ argsJoined ++ ")")
        else if fn = "max" then Except.ok ("std::max(" ++ argsJoined ++ ")")
        else if fn = "range" ∨ fn = "xrange" then Except.ok ("py14::range(" ++ argsJoined ++ ")")
        else if fn = "len" then Except.ok ("py14::len(" ++ argsJoined ++ ")")
        else Except.ok (fn ++ "(" ++ argsJoined ++ ")"))) := rfl
  rw [heq, hf, ha]
  refine ⟨?_, ?_, ?_, ?_, ?_, ?_⟩
  · intro h1; subst h1; rfl
  · intro h1; subst h1; rfl
  · intro h1; subst h1; rfl
  · rintro (h1 | h1) <;> subst h1 <;> rfl
  · intro h1; subst h1; rfl
  · intro h1
    simp only [List.mem_cons, List.not_mem_nil, or_false, not_or] at h1
    obtain ⟨n1, n2, n3, n4, n5, n6⟩ := h1
    simp [Except.bind, n1, n2, n3, n4, n5, n6]

/-- Witness for C7: `len(z)` maps to the runtime length helper, and an
unmapped callee renders as a plain invocation. -/
theorem visit_Call_builtin_map_witness :
    visitExpr specTracer (Expr.call (Expr.name "len") [Expr.name "z"]) =
      Except.ok "py14::len(z)" ∧
    visitExpr specTracer (Expr.call (Expr.name "foo") [Expr.name "z"]) =
      Except.ok "foo(z)" := by
  constructor
  · exact (visit_Call_builtin_map specTracer (Expr.name "len") [Expr.name "z"]
      "len" ["z"] rfl rfl).2.2.2.2.1 rfl
  · exact (visit_Call_builtin_map specTracer (Expr.name "foo") [Expr.name "z"]
      "foo" ["z"] rfl rfl).2.2.2.2.2 (by decide)

/-- C8: a conditional whose test compares `__name__` with the string literal
`"__main__"` emits the C++ entry point `int main` wrapping the conditional's
body, with the statement wiring the process argument vector into the
runtime-owned global emitted before any statement of the body. -/
theorem visit_If_main (t : Tracer) (body orelse : List Stmt) (vars : List String)
    (bodyLines : List String) (vars2 : List String)
    (hb : visitStmtList t body vars = Except.ok (bodyLines, vars2)) :
    visitStmt t (Stmt.ifStmt
        (Expr.compare (Expr.name "__name__") [Op.Eq] [Expr.strLit "__main__"])
        body orelse) vars =
      Except.ok (String.intercalate "\n"
        ("int main(int argc, char ** argv) \x7b" ::
         "py14::sys::argv = std::vector<std::string>(argv, argv + argc);" ::
         bodyLines ++ ["\x7d"]), vars2) := by
  have heq : visitStmt t (Stmt.ifStmt
        (Expr.compare (Expr.name "__name__") [Op.Eq] [Expr.strLit "__main__"])
        body orelse) vars =
      (visitStmtList t body vars).bind (fun p =>
        Except.ok (String.intercalate "\n"
          ("int main(int argc, char ** argv) \x7b" ::
           "py14::sys::argv = std::vector<std::string>(argv, argv + argc);" ::
           p.1 ++ ["\x7d"]), p.2)) := rfl
  rw [heq, hb]
  rfl

/-- Witness for C8: a concrete `if __name__ == "__main__"` block becomes the
entry point with the argument-vector wiring first. -/
theorem visit_If_main_witness :
    visitStmt specTracer
      (Stmt.ifStmt (Expr.compare (Expr.name "__name__") [Op.Eq] [Expr.strLit "__main__"])
        [Stmt.ret (some (Expr.num 0))] []) [] =
      Except.ok ("int main(int argc, char ** argv) \x7b\npy14::sys::argv = std::vector<std::string>(argv, argv + argc);\nreturn 0;\n\x7d",
        ([] : List String)) :=
  visit_If_main specTracer [Stmt.ret (some (Expr.num 0))] [] []
    ["return 0;"] [] rfl

/-- C3: when the recursion analysis reports a function self-recursive, its
emission is a template function with one independent type parameter per
positional argument (typename T1 … Tn) carrying the function's own name; when
it reports non-recursive, the emission is a lambda with auto-typed parameters
bound to the function's name.  The last conjunct records that the type
parameters number exactly one per positional argument. -/
theorem visit_FunctionDef_strategy (t : Tracer) (fname : String) (args : List String)
    (body : List Stmt) (vars bodyLines vars2 : List String)
    (hb : visitStmtList t body vars = Except.ok (bodyLines, vars2)) :
    (t.is_recursive (Stmt.functionDef fname args body) = true →
      visitStmt t (Stmt.functionDef fname args body) vars = Except.ok
        ("template <" ++ String.intercalate ", "
            (((List.range args.length).zip args).map
              (fun p => "typename T" ++ toString (p.1 + 1))) ++ ">" ++
         "\n" ++ "auto " ++ fname ++ "(" ++ String.intercalate ", "
            (((List.range args.length).zip args).map
              (fun p => "T" ++ toString (p.1 + 1) ++ " " ++ p.2)) ++ ")" ++
         (" \x7b\n" ++ String.intercalate "\n" bodyLines ++ "\n\x7d"), vars2)) ∧
    (t.is_recursive (Stmt.functionDef fname args body) = false →
      visitStmt t (Stmt.functionDef fname args body) vars = Except.ok
        ("auto " ++ fname ++ " = [](" ++
         String.intercalate ", " (args.map (fun a => "auto " ++ a)) ++ ")" ++
         (" \x7b\n" ++ String.intercalate "\n" bodyLines ++ "\n\x7d") ++ ";", vars2)) ∧
    (((List.range args.length).zip args).map
        (fun p => "typename T" ++ toString (p.1 + 1))).length = args.length := by
  have hfun1 : ∀ q : Nat × String,
      "typename " ++ ("T" ++ toString (q.1 + 1)) = "typename T" ++ toString (q.1 + 1) := by
    intro q
    rfl
  have heq : visitStmt t (Stmt.functionDef fname args body) vars =
      (visitStmtList t body vars).bind (fun p =>
        let bodyStr := " \x7b\n" ++ String.intercalate "\n" p.1 ++ "\n\x7d"
        if t.is_recursive (Stmt.functionDef fname args body) then
          let targs := args.enum.map (fun q => ("T" ++ toString (q.1 + 1), q.2))
          let typenames := targs.map (fun a => "typename " ++ a.1)
          let template := "template <" ++ String.intercalate ", " typenames ++ ">"
          let params := targs.map (fun a => a.1 ++ " " ++ a.2)
          Except.ok (template ++ "\n" ++ "auto " ++ fname ++ "(" ++
                     String.intercalate ", " params ++ ")" ++ bodyStr, p.2)
        else
          Except.ok ("auto " ++ fname ++ " = [](" ++
                     String.intercalate ", " (args.map (fun a => "auto " ++ a)) ++ ")" ++
                     bodyStr ++ ";", p.2)) := rfl
  rw [heq, hb]
  refine ⟨?_, ?_, ?_⟩
  · intro hrec
    simp [Except.bind, hrec, List.enum_eq_zip_range, List.map_map,
          Function.comp_def, hfun1]
  · intro hnrec
    simp [Except.bind, hnrec]
  · simp [List.length_zip, List.length_range]

/-- Witness for C3: a directly self-recursive one-argument function becomes a
one-type-parameter template named after itself; a non-recursive one becomes a
lambda bound to its name. -/
theorem visit_FunctionDef_strategy_witness :
    visitStmt specTracer
      (Stmt.functionDef "f" ["n"]
        [Stmt.ret (some (Expr.call (Expr.name "f") [Expr.name "n"]))]) [] =
      Except.ok ("template <typename T1>\nauto f(T1 n) \x7b\nreturn f(n);\n\x7d",
        ([] : List String)) ∧
    visitStmt specTracer
      (Stmt.functionDef "g" ["n"] [Stmt.ret (some (Expr.name "n"))]) [] =
      Except.ok ("auto g = [](auto n) \x7b\nreturn n;\n\x7d;", ([] : List String)) := by
  constructor
  · exact (visit_FunctionDef_strategy specTracer "f" ["n"]
      [Stmt.ret (some (Expr.call (Expr.name "f") [Expr.name "n"]))] []
      ["return f(n);"] [] rfl).1 rfl
  · exact (visit_FunctionDef_strategy specTracer "g" ["n"]
      [Stmt.ret (some (Expr.name "n"))] [] ["return n;"] [] rfl).2.1 rfl

/-- Helper: in the plain-reassignment branch of visit_Assign, the visited
name target occurs in the emitted text. -/
theorem assign_reassign_appears_aux (t : Tracer) (id : String) (value : Expr)
    (vars : List String) (out : String) (vars2 : List String)
    (h : (visitExpr t value).bind (fun v =>
          Except.ok (visit_Name id ++ " = " ++ v ++ ";", vars)) =
        Except.ok (out, vars2)) :
    appears (visit_Name id) out := by
  cases hv : visitExpr t value with
  | error e => rw [hv] at h; simp [Except.bind] at h
  | ok v =>
      rw [hv] at h
      simp [Except.bind] at h
      obtain ⟨h1, h2⟩ := h
      subst h1
      exact appears_append_right _ _ _ (appears_append_right _ _ _
        (appears_append_right _ _ _ (appears_self _)))

/-- Helper: in the typed-container-declaration branch of visit_Assign, the
visited name target occurs in the emitted text. -/
theorem assign_listdecl_appears_aux (t : Tracer) (id : String) (velts : List Expr)
    (decl : String) (vars : List String) (out : String) (vars2 : List String)
    (h : (visitExprList t velts).bind (fun elements =>
          (visitExpr t (Expr.name id)).bind (fun tsv =>
            Except.ok (decl ++ " " ++ tsv ++ " \x7b" ++
                       String.intercalate ", " elements ++ "\x7d;", vars))) =
        Except.ok (out, vars2)) :
    appears (visit_Name id) out := by
  have hn : visitExpr t (Expr.name id) = Except.ok (visit_Name id) := rfl
  rw [hn] at h
  cases hel : visitExprList t velts with
  | error e => rw [hel] at h; simp [Except.bind] at h
  | ok els =>
      rw [hel] at h
      simp [Except.bind] at h
      obtain ⟨h1, h2⟩ := h
      subst h1
      exact appears_append_right _ _ _ (appears_append_right _ _ _
        (appears_append_right _ _ _ (appears_append_left _ _ _ (appears_self _))))

/-- Helper: in the first-time-declaration branch of visit_Assign, the visited
name target occurs in the emitted text. -/
theorem assign_default_appears_aux (t : Tracer) (id : String) (value : Expr)
    (vars : List String) (out : String) (vars2 : List String)
    (h : (visitExpr t (Expr.name id)).bind (fun tsv =>
          (visitExpr t value).bind (fun v =>
            Except.ok ("auto " ++ tsv ++ " = " ++ v ++ ";", vars.insert tsv))) =
        Except.ok (out, vars2)) :
    appears (visit_Name id) out := by
  have hn : visitExpr t (Expr.name id) = Except.ok (visit_Name id) := rfl
  rw [hn] at h
  cases hv : visitExpr t value with
  | error e => rw [hv] at h; simp [Except.bind] at h
  | ok v =>
      rw [hv] at h
      simp [Except.bind] at h
      obtain ⟨h1, h2⟩ := h
      subst h1
      exact appears_append_right _ _ _ (appears_append_right _ _ _
        (appears_append_right _ _ _ (appears_append_left _ _ _ (appears_self _))))

/-- Counterexample for C6: the chained comparison `a < b < c` renders as
"a < b" with the comparand `c` and the second operator silently dropped and no
error raised, and the multi-target assignment `x = y = 1` renders using only
its first target `x`; the claim that every child appears or errors is false at
these inputs. -/
theorem compare_chain_drops_comparand :
    (visitExpr specTracer
        (Expr.compare (Expr.name "a") [Op.Lt, Op.Lt] [Expr.name "b", Expr.name "c"]) =
        Except.ok "a < b" ∧ ¬ appears "c" "a < b") ∧
    (visitStmt specTracer
        (Stmt.assign [Expr.name "x", Expr.name "y"] (Expr.num 1)) [] =
        Except.ok ("auto x = 1;", ["x"]) ∧ ¬ appears "y" "auto x = 1;") :=
  ⟨⟨rfl, by decide⟩, ⟨rfl, by decide⟩⟩

/-- C6 (amended): the emitter renders or fails the children it consults —
the left operand, the FIRST operator and the FIRST comparand of a comparison,
and the first target of an assignment when it is a plain name, each appear in
the emitted text whenever emission succeeds — but operators and comparands
past the first, and assignment targets past the first, are silently
dropped. -/
theorem first_children_rendered (t : Tracer) :
    (∀ left c op ops cs ls rs out,
        visitExpr t left = Except.ok ls →
        visitExpr t c = Except.ok rs →
        visitExpr t (Expr.compare left (op :: ops) (c :: cs)) = Except.ok out →
        appears ls out ∧ appears (c_symbol op) out ∧ appears rs out) ∧
    (∀ id ts value vars out vars2,
        visitStmt t (Stmt.assign (Expr.name id :: ts) value) vars =
          Except.ok (out, vars2) →
        appears (visit_Name id) out) := by
  constructor
  · intro left c op ops cs ls rs out hl hc hcmp
    by_cases hop : op = Op.In
    · subst hop
      have herr : visitExpr t (Expr.compare left (Op.In :: ops) (c :: cs)) =
          Except.error "AttributeError: visit_Any" := rfl
      rw [herr] at hcmp
      simp at hcmp
    · have heq : visitExpr t (Expr.compare left (op :: ops) (c :: cs)) =
          if op = Op.In then Except.error "AttributeError: visit_Any"
          else (visitExpr t left).bind (fun l =>
            (visitExpr t c).bind (fun r =>
              Except.ok (l ++ " " ++ c_symbol op ++ " " ++ r))) := rfl
      rw [heq, if_neg hop, hl, hc] at hcmp
      simp [Except.bind] at hcmp
      subst hcmp
      refine ⟨?_, ?_, ?_⟩
      · exact appears_append_right _ _ _ (appears_append_right _ _ _
          (appears_append_right _ _ _ (appears_append_right _ _ _ (appears_self _))))
      · exact appears_append_right _ _ _ (appears_append_right _ _ _
          (appears_append_left _ _ _ (appears_self _)))
      · exact appears_append_left _ _ _ (appears_self _)
  · intro id ts value vars out vars2 h
    simp only [visitStmt] at h
    by_cases hd : vars.contains id = true
    · rw [if_pos hd] at h
      exact assign_reassign_appears_aux t id value vars out vars2 h
    · rw [if_neg hd] at h
      cases value
      all_goals first
        | exact assign_listdecl_appears_aux t id _ _ vars out vars2 h
        | exact assign_default_appears_aux t id _ vars out vars2 h

/-- Witness for C6's amended theorem: at a concrete single-operator
comparison the left operand, operator and comparand all occur in the output,
and at a concrete name-targeted assignment the target occurs in the output. -/
theorem first_children_rendered_witness :
    (appears "a" "a < b" ∧ appears "<" "a < b" ∧ appears "b" "a < b") ∧
    appears "x" "auto x = 1;" := by
  constructor
  · exact (first_children_rendered specTracer).1 (Expr.name "a") (Expr.name "b")
      Op.Lt [Op.Lt] [Expr.name "c"] "a" "b" "a < b" rfl rfl rfl
  · exact (first_children_rendered specTracer).2 "x" [] (Expr.num 1) []
      "auto x = 1;" ["x"] rfl
